import Mathlib

/-!
Verification development for the CureSight triage backend (src/main.py).

The Python source is shallowly embedded: pure helper functions become Lean
functions over `String` / `List Char`; the mutable rule and content stores
become explicit parameters; the persistence collaborator becomes a function
argument; exceptions become `Except`.  Machine-independent Python semantics
(substring containment via `in`, `str.lower`, `str.split`, `dict.get`,
`x or None`) are reproduced by small executable definitions.
-/

namespace CureSight

set_option maxRecDepth 8192

/-! ## Python string primitives -/

/-- Python `str.lower`, restricted to ASCII case mapping (every string handled
by the claims is ASCII; `Char.toLower` agrees with Python there). -/
def lowerStr (s : List Char) : List Char := s.map Char.toLower

/-- Characters Python's `str.strip()` removes: the characters for which
`str.isspace()` holds, up to the Latin-1 range (all inputs of interest are
ASCII). -/
def isPySpace (c : Char) : Bool :=
  c = ' ' || c = '\t' || c = '\n' || c = '\r' || c = '\x0B' || c = '\x0C' ||
  c = '\x1C' || c = '\x1D' || c = '\x1E' || c = '\x85' || c = '\xA0'

/-- Python `str.strip()` with no argument: drop leading and trailing
whitespace. -/
def pyStrip (s : List Char) : List Char :=
  ((s.dropWhile isPySpace).reverse.dropWhile isPySpace).reverse

/-- Line-boundary characters of Python's `str.splitlines`. -/
def isLineBreak (c : Char) : Bool :=
  c = '\n' || c = '\r' || c = '\x0B' || c = '\x0C' || c = '\x1C' ||
  c = '\x1D' || c = '\x1E' || c = '\x85' || c = '\u2028' || c = '\u2029'

/-- Split a character list at every character satisfying `p`, keeping empty
segments.  Splitting at each boundary character individually differs from
`str.splitlines` only in that a `"\r\n"` pair yields an extra empty segment,
which every caller below discards. -/
def splitOnP (p : Char → Bool) : List Char → List (List Char)
  | [] => [[]]
  | c :: rest =>
    if p c then [] :: splitOnP p rest
    else
      match splitOnP p rest with
      | [] => [[c]]
      | g :: gs => (c :: g) :: gs

/-- Whether `pre` is a prefix of `s` (Boolean). -/
def isPrefixL : List Char → List Char → Bool
  | [], _ => true
  | _ :: _, [] => false
  | x :: xs, y :: ys => x = y && isPrefixL xs ys

/-- Python's substring test `needle in hay`. -/
def containsL (hay needle : List Char) : Bool :=
  if isPrefixL needle hay then true
  else
    match hay with
    | [] => false
    | _ :: t => containsL t needle

/-- Python `dict.get(k)` over an association list (the JSON content document).
Returns `none` when the key is absent, exactly like `dict.get`. -/
def dictGet (d : List (String × String)) (k : String) : Option String :=
  match d.find? (fun kv => kv.1 == k) with
  | some kv => some kv.2
  | none => none

/-- Python `s or None` for a string `s`: `None` when the string is empty. -/
def orNone (s : String) : Option String := if s = "" then none else some s

/-! ## Configuration documents (src/main.py lines 44-56) -/

/-- The rules document: a JSON object whose `red_flags` key holds the ordered
red-flag phrase list.  `update_rules` stores whatever payload it is given, so
the list is arbitrary. -/
structure RulesDoc where
  red_flags : List String
deriving DecidableEq, Repr

/-- DEFAULT_RULES from src/main.py. -/
def DEFAULT_RULES : RulesDoc :=
  ⟨["chest pain", "shortness of breath", "loss of consciousness",
    "severe bleeding", "stroke", "suicidal", "anaphylaxis", "blue lips",
    "severe allergic", "poison"]⟩

/-- DEFAULT_CONTENT from src/main.py. -/
def DEFAULT_CONTENT : List (String × String) :=
  [("self_care", "Based on your symptoms, home care may be sufficient. Rest, hydrate, and monitor your symptoms."),
   ("consult", "Please consult a qualified healthcare professional for evaluation within 24-48 hours."),
   ("emergency", "This may be an emergency. Seek immediate medical attention or call local emergency services.")]

/-! ## Triage engine (src/main.py lines 153-189) -/

/-- Result dictionary of `analyze_text_engine`.  `recommendation` is an
`Option` because the source uses `content.get(...)`, which can yield `None`
when a key is missing. -/
structure AnalysisOut where
  category : String
  severity : String
  recommendation : Option String
  reason : Option String
deriving DecidableEq, Repr

/-- Python `any(w in t for w in terms)`. -/
def anyTermIn (t : List Char) (terms : List String) : Bool :=
  terms.any (fun w => containsL t w.data)

/-- The for-loop over `rules.get('red_flags', [])` with `break` on the first
flag whose lower-cased form occurs in the (already lower-cased) text. -/
def firstRedFlag (t : List Char) (rules : RulesDoc) : Option String :=
  rules.red_flags.find? (fun flag => containsL t (lowerStr flag.data))

/-- `analyze_text_engine` from src/main.py, with the `load_content()` and
`load_rules()` file reads made explicit parameters. -/
def analyze_text_engine (content : List (String × String)) (rules : RulesDoc)
    (text : String) : AnalysisOut :=
  let t := lowerStr text.data
  let category0 := "general"
  let category1 :=
    if anyTermIn t ["fever", "cold", "cough", "sore throat"] then "respiratory"
    else category0
  let category2 :=
    if anyTermIn t ["chest", "heart", "palpitation"] then "cardiac"
    else category1
  let category :=
    if anyTermIn t ["rash", "itch", "allergy"] then "dermatology"
    else category2
  let severity0 :=
    if anyTermIn t ["moderate", "severe", "high", "intense", "cannot sleep"]
    then "medium" else "low"
  let severity :=
    if anyTermIn t ["unbearable", "fainted", "bleeding", "blue lips", "not breathing"]
    then "high" else severity0
  let recommendation :=
    if severity = "low" then dictGet content "self_care"
    else dictGet content "consult"
  match firstRedFlag t rules with
  | some flag =>
    ⟨category, "emergency", dictGet content "emergency",
      orNone ("Red flag triggered: " ++ flag)⟩
  | none => ⟨category, severity, recommendation, orNone ""⟩

/-! ## Relevance filter (src/main.py lines 117-132) -/

/-- The fixed medical-vocabulary keyword list of `filter_medically_relevant`. -/
def MEDICAL_KEYWORDS : List String :=
  ["tab", "tablet", "cap", "capsule", "syrup", "ml", "mg", "mcg", "bid",
   "tid", "qid", "od", "diagnosis", "dx", "rx", "bp", "hr", "temp", "fever",
   "cough", "pain", "infection", "asthma", "diabetes"]

/-- `[l.strip() for l in text.splitlines() if l.strip()]`. -/
def relevantLines (text : String) : List (List Char) :=
  ((splitOnP isLineBreak text.data).map pyStrip).filter (fun l => !l.isEmpty)

/-- Whether a line survives the keyword filter:
`any(k in lower for k in keywords)` with `lower = l.lower()`. -/
def keywordLine (l : List Char) : Bool :=
  anyTermIn (lowerStr l) MEDICAL_KEYWORDS

/-- Python `"\n".join(...)`. -/
def joinNL : List (List Char) → List Char
  | [] => []
  | [l] => l
  | l :: ls => l ++ '\n' :: joinNL ls

/-- `filter_medically_relevant` from src/main.py. -/
def filter_medically_relevant (text : String) : String :=
  let lines := relevantLines text
  let kept := lines.filter keywordLine
  let kept2 := if kept.isEmpty then lines.take 10 else kept
  String.mk (joinNL kept2)

/-! ## Bytes, SHA-256 and HMAC (for hmac.new(..., hashlib.sha256)) -/

/-- UTF-8 encoding of a single code point (Python `str.encode('utf-8')`). -/
def utf8Char (c : Char) : List Nat :=
  let n := c.toNat
  if n < 128 then [n]
  else if n < 2048 then [192 + n / 64, 128 + n % 64]
  else if n < 65536 then [224 + n / 4096, 128 + n / 64 % 64, 128 + n % 64]
  else [240 + n / 262144, 128 + n / 4096 % 64, 128 + n / 64 % 64, 128 + n % 64]

/-- UTF-8 encoding of a character list. -/
def utf8L (s : List Char) : List Nat := (s.map utf8Char).flatten

/-- Truncation to a 32-bit word. -/
def w32 (n : Nat) : Nat := n % 4294967296

/-- Right rotation of a 32-bit word (arguments below 2^32). -/
def rotr32 (k x : Nat) : Nat := x / 2 ^ k + x % 2 ^ k * 2 ^ (32 - k)

/-- Logical right shift. -/
def shr32 (k x : Nat) : Nat := x / 2 ^ k

/-- SHA-256 Ch function. -/
def ch32 (e f g : Nat) : Nat :=
  Nat.xor (Nat.land e f) (Nat.land (Nat.xor e 4294967295) g)

/-- SHA-256 Maj function. -/
def maj32 (a b c : Nat) : Nat :=
  Nat.xor (Nat.xor (Nat.land a b) (Nat.land a c)) (Nat.land b c)

/-- SHA-256 big Sigma0. -/
def bsig0 (x : Nat) : Nat := Nat.xor (Nat.xor (rotr32 2 x) (rotr32 13 x)) (rotr32 22 x)

/-- SHA-256 big Sigma1. -/
def bsig1 (x : Nat) : Nat := Nat.xor (Nat.xor (rotr32 6 x) (rotr32 11 x)) (rotr32 25 x)

/-- SHA-256 small sigma0. -/
def ssig0 (x : Nat) : Nat := Nat.xor (Nat.xor (rotr32 7 x) (rotr32 18 x)) (shr32 3 x)

/-- SHA-256 small sigma1. -/
def ssig1 (x : Nat) : Nat := Nat.xor (Nat.xor (rotr32 17 x) (rotr32 19 x)) (shr32 10 x)

/-- Bisection step for the integer cube root. -/
def cbrtAux (n : Nat) : Nat → Nat → Nat → Nat
  | 0, lo, _ => lo
  | fuel + 1, lo, hi =>
    if lo = hi then lo
    else
      let mid := (lo + hi + 1) / 2
      if mid ^ 3 ≤ n then cbrtAux n fuel mid hi else cbrtAux n fuel lo (mid - 1)

/-- Integer cube root (64 bisection steps suffice for all arguments used). -/
def icbrt (n : Nat) : Nat := cbrtAux n 64 0 68719476736

/-- Bisection step for the integer square root (structural recursion on fuel,
so that it evaluates inside the kernel). -/
def sqrtAux (n : Nat) : Nat → Nat → Nat → Nat
  | 0, lo, _ => lo
  | fuel + 1, lo, hi =>
    if lo = hi then lo
    else
      let mid := (lo + hi + 1) / 2
      if mid ^ 2 ≤ n then sqrtAux n fuel mid hi else sqrtAux n fuel lo (mid - 1)

/-- Integer square root (64 bisection steps suffice for all arguments used). -/
def isqrt (n : Nat) : Nat := sqrtAux n 64 0 1099511627776

/-- The first 64 primes, as used by FIPS 180-4 to define the SHA-256 round
constants and initial hash value. -/
def primes64 : List Nat :=
  [2, 3, 5, 7, 11, 13, 17, 19, 23, 29, 31, 37, 41, 43, 47, 53, 59, 61, 67,
   71, 73, 79, 83, 89, 97, 101, 103, 107, 109, 113, 127, 131, 137, 139, 149,
   151, 157, 163, 167, 173, 179, 181, 191, 193, 197, 199, 211, 223, 227, 229,
   233, 239, 241, 251, 257, 263, 269, 271, 277, 281, 283, 293, 307, 311]

/-- SHA-256 round constants: the first 32 bits of the fractional parts of the
cube roots of the first 64 primes. -/
def SHA256_K : List Nat := primes64.map (fun p => w32 (icbrt (p * 2 ^ 96)))

/-- SHA-256 initial hash value: the first 32 bits of the fractional parts of
the square roots of the first 8 primes. -/
def SHA256_H0 : List Nat := (primes64.take 8).map (fun p => w32 (isqrt (p * 2 ^ 64)))

/-- Big-endian 4-byte encoding of a 32-bit word. -/
def be32 (n : Nat) : List Nat := [n / 16777216 % 256, n / 65536 % 256, n / 256 % 256, n % 256]

/-- Big-endian 8-byte encoding of the 64-bit message length. -/
def be64 (n : Nat) : List Nat := be32 (n / 4294967296) ++ be32 n

/-- Big-endian 32-bit word from 4 bytes. -/
def word32 (bs : List Nat) : Nat := bs.foldl (fun acc b => acc * 256 + b) 0

/-- Split a list into chunks of `n` (fuelled; fuel `xs.length` suffices for
`n` positive). -/
def chunkAux (n : Nat) : Nat → List Nat → List (List Nat)
  | 0, _ => []
  | _, [] => []
  | fuel + 1, xs => xs.take n :: chunkAux n fuel (xs.drop n)

/-- Split a byte list into chunks of `n` bytes. -/
def chunk (n : Nat) (xs : List Nat) : List (List Nat) := chunkAux n xs.length xs

/-- SHA-256 message padding: a 0x80 byte, zeros to 56 mod 64, then the bit
length as a big-endian 64-bit integer. -/
def padMsg (msg : List Nat) : List Nat :=
  msg ++ 128 :: List.replicate ((64 - (msg.length + 9) % 64) % 64) 0 ++ be64 (msg.length * 8)

/-- One message-schedule extension step: append word 16 ≤ i < 64. -/
def schedStep (w : List Nat) : List Nat :=
  let n := w.length
  w ++ [w32 (ssig1 (w.getD (n - 2) 0) + w.getD (n - 7) 0 +
             ssig0 (w.getD (n - 15) 0) + w.getD (n - 16) 0)]

/-- Full 64-word message schedule from the 16 block words. -/
def schedule (w : List Nat) : List Nat :=
  (List.range 48).foldl (fun acc _ => schedStep acc) w

/-- One SHA-256 round on the 8-word working state. -/
def compressStep (st : List Nat) (kw : Nat × Nat) : List Nat :=
  match st with
  | [a, b, c, d, e, f, g, h] =>
    let t1 := w32 (h + bsig1 e + ch32 e f g + kw.1 + kw.2)
    let t2 := w32 (bsig0 a + maj32 a b c)
    [w32 (t1 + t2), a, b, c, w32 (d + t1), e, f, g]
  | other => other

/-- SHA-256 compression of one 64-byte block into the running hash. -/
def compressBlock (H : List Nat) (block : List Nat) : List Nat :=
  let st := (SHA256_K.zip (schedule (chunk 4 block |>.map word32))).foldl compressStep H
  (H.zip st).map (fun p => w32 (p.1 + p.2))

/-- SHA-256 digest (32 bytes) of a byte string. -/
def sha256 (msg : List Nat) : List Nat :=
  (((chunk 64 (padMsg msg)).foldl compressBlock SHA256_H0).map be32).flatten

/-- HMAC-SHA256 (RFC 2104, as implemented by Python's hmac module). -/
def hmacSha256 (key msg : List Nat) : List Nat :=
  let k0 := if 64 < key.length then sha256 key else key
  let kpad := k0 ++ List.replicate (64 - k0.length) 0
  sha256 (kpad.map (fun b => Nat.xor b 92) ++
          sha256 (kpad.map (fun b => Nat.xor b 54) ++ msg))

/-- Lower-case hex digit. -/
def hexChar (n : Nat) : Char :=
  match n with
  | 0 => '0' | 1 => '1' | 2 => '2' | 3 => '3' | 4 => '4' | 5 => '5'
  | 6 => '6' | 7 => '7' | 8 => '8' | 9 => '9' | 10 => 'a' | 11 => 'b'
  | 12 => 'c' | 13 => 'd' | 14 => 'e' | 15 => 'f' | _ => '0'

/-- Lower-case hex rendering of a byte string (Python `hexdigest()`). -/
def bytesToHex (bs : List Nat) : List Char :=
  (bs.map (fun b => [hexChar (b / 16 % 16), hexChar (b % 16)])).flatten

/-- The hex HMAC-SHA256 digest over character data, as in `make_token` and
`verify_token`. -/
def hmacHexL (key msg : List Char) : List Char :=
  bytesToHex (hmacSha256 (utf8L key) (utf8L msg))

/-! ## Token authenticator (src/main.py lines 66-68 and 194-209) -/

/-- Default of `os.getenv('ADMIN_SECRET', 'change-me-secret')`. -/
def SECRET_KEY : String := "change-me-secret"

/-- Default of `os.getenv('ADMIN_USERNAME', 'admin')`. -/
def ADMIN_USERNAME : String := "admin"

/-- Default of `os.getenv('ADMIN_PASSWORD', 'curesight')`. -/
def ADMIN_PASSWORD : String := "curesight"

/-- Decimal digit character. -/
def digitChar (n : Nat) : Char :=
  match n with
  | 0 => '0' | 1 => '1' | 2 => '2' | 3 => '3' | 4 => '4'
  | 5 => '5' | 6 => '6' | 7 => '7' | 8 => '8' | 9 => '9' | _ => '0'

/-- Little-endian digits of `n` (fuelled structural recursion; fuel `n`
suffices since a positive number has at most `n` digits). -/
def digitsRevAux : Nat → Nat → List Char
  | 0, _ => []
  | fuel + 1, n =>
    if n = 0 then [] else digitChar (n % 10) :: digitsRevAux fuel (n / 10)

/-- Python `str(n)` for a non-negative integer. -/
def natDecimal (n : Nat) : List Char :=
  if n = 0 then ['0'] else (digitsRevAux n n).reverse

/-- Python `int(s)` restricted to all-digit strings; on anything else `int`
raises, which `verify_token`'s except-clause turns into `False`. -/
def parseNat (cs : List Char) : Option Nat :=
  if !cs.isEmpty && cs.all Char.isDigit
  then some (cs.foldl (fun a c => a * 10 + (c.toNat - 48)) 0)
  else none

/-- Character data of `make_token`'s result:
`f"{username}.{ts}.{sig}"` with `sig = hmac.new(SECRET_KEY, f"{username}:{ts}",
sha256).hexdigest()`. -/
def tokenChars (username : List Char) (now : Nat) : List Char :=
  username ++ '.' :: natDecimal now ++ '.' ::
    hmacHexL SECRET_KEY.data (username ++ ':' :: natDecimal now)

/-- `make_token` from src/main.py, with the clock made an explicit argument
(`int(datetime.now(timezone.utc).timestamp())`, in seconds). -/
def make_token (username : String) (now : Nat) : String :=
  String.mk (tokenChars username.data now)

/-- Python `token.split('.')`. -/
def splitOnDot : List Char → List (List Char) := splitOnP (fun c => c == '.')

/-- `hmac.compare_digest`: a timing-safe comparison, semantically equality. -/
def compare_digest (a b : List Char) : Bool := a == b

/-- Body of `verify_token`: unpack the three dot-separated fields (the
except-clause catches the wrong-field-count `ValueError`, giving `False`),
recompute the signature, compare, and check `now - issued_at < 7 days`
(604800 seconds). -/
def verifyChars (token : List Char) (now : Nat) : Bool :=
  match splitOnDot token with
  | [u, ts, sig] =>
    if compare_digest (hmacHexL SECRET_KEY.data (u ++ ':' :: ts)) sig then
      match parseNat ts with
      | some issued => decide ((now : Int) - (issued : Int) < 604800)
      | none => false
    else false
  | _ => false

/-- `verify_token` from src/main.py with the clock explicit. -/
def verify_token (token : String) (now : Nat) : Bool := verifyChars token.data now

/-- `admin_login` (POST /api/admin/login): issue a token exactly when the
credentials match the configured admin identity. -/
def admin_login (username password : String) (now : Nat) : Option String :=
  if username == ADMIN_USERNAME && password == ADMIN_PASSWORD
  then some (make_token username now) else none

/-! ## Python regular expressions, restricted to the constructs appearing in
strip_pii (src/main.py lines 102-114).

The five patterns use: literal characters, the escape `\\` (every backslash in
the source's raw strings is doubled, so the only escape that occurs is an
escaped backslash), the dot, character classes with ranges and negation, one
level of group alternation, and the quantifiers `*`, `+`, `+?`, `?`, `{n,}`,
`{n,m}` applied to single-character atoms.  Compilation reproduces CPython's
class parsing, in particular its rejection of a descending range
(`re.error: bad character range`); constructs outside the subset compile to
`invalidPattern` (none occur in the five patterns).  Matching reproduces the
backtracking order (alternatives left to right, greedy maximal first, lazy
minimal first), and substitution is `re.sub`'s left-to-right non-overlapping
scan. -/

/-- Errors of `re.compile` on this subset. -/
inductive RegexErr where
  | badCharacterRange : RegexErr
  | invalidPattern : RegexErr
deriving DecidableEq, Repr

/-- A single-character matcher: a literal, the dot, or a class given by a
negation flag and closed ranges (a single member is a one-point range). -/
inductive RAtom where
  | rchar : Char → RAtom
  | rany : RAtom
  | rclass : Bool → List (Char × Char) → RAtom
deriving Repr

/-- A pattern element: a quantified atom (`lo`, optional `hi`, lazy flag; a
bare atom is `rep a 1 (some 1) false`), or a group of alternative
sequences. -/
inductive RPiece where
  | rep : RAtom → Nat → Option Nat → Bool → RPiece
  | alt : List (List RPiece) → RPiece
deriving Repr

/-- One class item: an escaped backslash or a literal (the only escape in the
source patterns is `\\`).  `]` must be handled by the caller. -/
def classChar : List Char → Except RegexErr (Char × List Char)
  | '\\' :: c :: rest =>
    if c = '\\' then .ok ('\\', rest) else .error .invalidPattern
  | ['\\'] => .error .invalidPattern
  | c :: rest => .ok (c, rest)
  | [] => .error .invalidPattern

/-- CPython's character-class body parsing: read an item; a following `-`
starts a range unless the next character is `]` (then the hyphen is a literal
and the class ends); a descending range is `re.error: bad character range`. -/
def classItems : Nat → List Char → Except RegexErr (List (Char × Char) × List Char)
  | 0, _ => .error .invalidPattern
  | _, [] => .error .invalidPattern
  | fuel + 1, s =>
    match s with
    | ']' :: rest => .ok ([], rest)
    | s => do
      let (c1, s1) ← classChar s
      match s1 with
      | '-' :: ']' :: rest => .ok ([(c1, c1), ('-', '-')], rest)
      | '-' :: s2 => do
        let (c2, s3) ← classChar s2
        if c2.toNat < c1.toNat then .error .badCharacterRange
        else do
          let (items, rest) ← classItems fuel s3
          .ok ((c1, c2) :: items, rest)
      | _ => do
        let (items, rest) ← classItems fuel s1
        .ok ((c1, c1) :: items, rest)

/-- Value of a digit run. -/
def digitsToNat (ds : List Char) : Nat :=
  ds.foldl (fun a c => a * 10 + (c.toNat - 48)) 0

/-- Attach the optional lazy marker `?` to a quantifier. -/
def lazyMark (a : RAtom) (lo : Nat) (hi : Option Nat) :
    List Char → RPiece × List Char
  | '?' :: rest => (.rep a lo hi true, rest)
  | rest => (.rep a lo hi false, rest)

/-- Parse the quantifier (if any) following a single-character atom. -/
def quantify (a : RAtom) : List Char → Except RegexErr (RPiece × List Char)
  | '*' :: rest => .ok (lazyMark a 0 none rest)
  | '+' :: rest => .ok (lazyMark a 1 none rest)
  | '?' :: rest => .ok (lazyMark a 0 (some 1) rest)
  | '{' :: rest =>
    let ds1 := rest.takeWhile Char.isDigit
    let r1 := rest.dropWhile Char.isDigit
    if ds1.isEmpty then .error .invalidPattern
    else
      match r1 with
      | ',' :: r2 =>
        let ds2 := r2.takeWhile Char.isDigit
        let r3 := r2.dropWhile Char.isDigit
        (match r3 with
         | '}' :: r4 =>
           .ok (lazyMark a (digitsToNat ds1)
                 (if ds2.isEmpty then none else some (digitsToNat ds2)) r4)
         | _ => .error .invalidPattern)
      | '}' :: r4 => .ok (lazyMark a (digitsToNat ds1) (some (digitsToNat ds1)) r4)
      | _ => .error .invalidPattern
  | rest => .ok (.rep a 1 (some 1) false, rest)

/-- Copy a class body up to and including its closing `]` (used when slicing
a group so that `|` or `)` inside a class are not treated as structure). -/
def classSpan : Nat → List Char → Except RegexErr (List Char × List Char)
  | 0, _ => .error .invalidPattern
  | _, [] => .error .invalidPattern
  | fuel + 1, s =>
    match s with
    | ']' :: rest => .ok ([']'], rest)
    | '\\' :: c :: rest => do
      let (cls, r) ← classSpan fuel rest
      .ok ('\\' :: c :: cls, r)
    | c :: rest => do
      let (cls, r) ← classSpan fuel rest
      .ok (c :: cls, r)
    | [] => .error .invalidPattern

/-- Slice a group's contents up to its closing `)` (the subset has no nested
groups). -/
def groupSpan : Nat → List Char → Except RegexErr (List Char × List Char)
  | 0, _ => .error .invalidPattern
  | _, [] => .error .invalidPattern
  | fuel + 1, s =>
    match s with
    | ')' :: rest => .ok ([], rest)
    | '(' :: _ => .error .invalidPattern
    | '\\' :: c :: rest => do
      let (tail, r) ← groupSpan fuel rest
      .ok ('\\' :: c :: tail, r)
    | '[' :: rest => do
      let (cls, r1) ← classSpan fuel rest
      let (tail, r2) ← groupSpan fuel r1
      .ok ('[' :: cls ++ tail, r2)
    | c :: rest => do
      let (tail, r) ← groupSpan fuel rest
      .ok (c :: tail, r)
    | [] => .error .invalidPattern

/-- Split a group's contents at its top-level `|` separators. -/
def splitAlts : Nat → List Char → Except RegexErr (List (List Char))
  | 0, _ => .error .invalidPattern
  | _, [] => .ok [[]]
  | fuel + 1, s =>
    match s with
    | '|' :: rest => do
      let alts ← splitAlts fuel rest
      .ok ([] :: alts)
    | '\\' :: c :: rest => do
      let alts ← splitAlts fuel rest
      match alts with
      | a :: more => .ok (('\\' :: c :: a) :: more)
      | [] => .error .invalidPattern
    | '[' :: rest => do
      let (cls, r1) ← classSpan fuel rest
      let alts ← splitAlts fuel r1
      match alts with
      | a :: more => .ok (('[' :: cls ++ a) :: more)
      | [] => .error .invalidPattern
    | c :: rest => do
      let alts ← splitAlts fuel rest
      match alts with
      | a :: more => .ok ((c :: a) :: more)
      | [] => .error .invalidPattern
    | [] => .ok [[]]

/-- Is this character one that starts a quantifier?  A quantified group is
outside the supported subset (none of the five patterns has one). -/
def quantStart (c : Char) : Bool :=
  c = '*' || c = '+' || c = '?' || c = '{'

/-- Parse a pattern (a piece sequence).  `|` and `)` are handled by the group
slicing, so reaching one here is outside the subset. -/
def parseR : Nat → List Char → Except RegexErr (List RPiece)
  | 0, _ => .error .invalidPattern
  | _, [] => .ok []
  | fuel + 1, s =>
    match s with
    | '(' :: rest => do
      let (content, r1) ← groupSpan fuel rest
      let altStrs ← splitAlts fuel content
      let alts ← altStrs.mapM (fun a => parseR fuel a)
      match r1 with
      | c :: _ =>
        if quantStart c then .error .invalidPattern
        else do
          let ps ← parseR fuel r1
          .ok (RPiece.alt alts :: ps)
      | [] => .ok [RPiece.alt alts]
    | '[' :: rest => do
      let (neg, r1) :=
        match rest with
        | '^' :: r => (true, r)
        | _ => (false, rest)
      let (items, r2) ← classItems fuel r1
      let (piece, r3) ← quantify (RAtom.rclass neg items) r2
      let ps ← parseR fuel r3
      .ok (piece :: ps)
    | '\\' :: c :: rest =>
      if c = '\\' then do
        let (piece, r1) ← quantify (RAtom.rchar '\\') rest
        let ps ← parseR fuel r1
        .ok (piece :: ps)
      else .error .invalidPattern
    | ['\\'] => .error .invalidPattern
    | '.' :: rest => do
      let (piece, r1) ← quantify RAtom.rany rest
      let ps ← parseR fuel r1
      .ok (piece :: ps)
    | c :: rest =>
      if c = ')' || c = '|' || quantStart c then .error .invalidPattern
      else do
        let (piece, r1) ← quantify (RAtom.rchar c) rest
        let ps ← parseR fuel r1
        .ok (piece :: ps)
    | [] => .ok []

/-- re.compile on the subset. -/
def reCompile (pat : String) : Except RegexErr (List RPiece) :=
  parseR (4 * (pat.data.length + 1)) pat.data

/-- Single-character matching, with Python's IGNORECASE handling. -/
def atomMatch (ci : Bool) (a : RAtom) (c : Char) : Bool :=
  match a with
  | .rchar d => c = d || (ci && c.toLower = d.toLower)
  | .rany => c != '\n'
  | .rclass neg items =>
    let inSet := fun x : Char =>
      items.any (fun r => r.1.toNat ≤ x.toNat && x.toNat ≤ r.2.toNat)
    let pos := inSet c || (ci && (inSet c.toLower || inSet c.toUpper))
    if neg then !pos else pos

/-- Length of the longest run of characters matching `a`. -/
def runLen (ci : Bool) (a : RAtom) : List Char → Nat
  | [] => 0
  | c :: t => if atomMatch ci a c then runLen ci a t + 1 else 0

/-- Backtracking matcher: the length of the match at the start of `s` found
first in Python's exploration order (alternatives left to right; greedy
repetitions longest first, lazy ones shortest first), or `none`.  The fuel
bounds the recursion depth, which never exceeds the total number of pieces
of the pattern (a few dozen here). -/
def matchSeq (ci : Bool) : Nat → List RPiece → List Char → Option Nat
  | 0, _, _ => none
  | _, [], _ => some 0
  | fuel + 1, RPiece.rep a lo hi lz :: rs, s =>
    let m := runLen ci a s
    let mx := match hi with | none => m | some h => min m h
    if mx < lo then none
    else
      let counts :=
        if lz then (List.range (mx - lo + 1)).map (fun i => lo + i)
        else (List.range (mx - lo + 1)).map (fun i => mx - i)
      counts.findSome? (fun k =>
        (matchSeq ci fuel rs (s.drop k)).map (fun n => k + n))
  | fuel + 1, RPiece.alt alts :: rs, s =>
    alts.findSome? (fun seq => matchSeq ci fuel (seq ++ rs) s)

/-- Match attempt at one position (ample fixed fuel; see `matchSeq`). -/
def reMatchAt (ci : Bool) (ps : List RPiece) (s : List Char) : Option Nat :=
  matchSeq ci 1000 ps s

/-- The re.sub scan: try a match at every position left to right; on a
(non-empty) match emit the replacement and continue after it, otherwise copy
one character.  (The five patterns cannot match the empty string; a
zero-length match is treated as no match to keep the scan structural.) -/
def substAux (ci : Bool) (ps : List RPiece) (repl : List Char) :
    Nat → List Char → List Char
  | 0, s => s
  | _, [] => []
  | fuel + 1, c :: t =>
    match reMatchAt ci ps (c :: t) with
    | some (n + 1) => repl ++ substAux ci ps repl fuel ((c :: t).drop (n + 1))
    | _ => c :: substAux ci ps repl fuel t

/-- `re.sub(pattern, repl, text, flags)`: compile (which can raise), then
substitute. -/
def reSub (pat repl text : String) (ci : Bool) : Except RegexErr String := do
  let ps ← reCompile pat
  .ok (String.mk (substAux ci ps repl.data text.data.length text.data))

/-! ## strip_pii (src/main.py lines 102-114)

The pattern strings below are exactly the Python raw-string literals of the
source; since they are raw strings, every `\\` is two backslash characters. -/

/-- Pattern of the "Remove emails" pass. -/
def EMAIL_PATTERN : String := "[A-Za-z0-9._%+-]+@[A-Za-z0-9.-]+\\\\.[A-Za-z]{2,}"

/-- Pattern of the "Remove phone numbers" pass. -/
def PHONE_PATTERN : String := "(\\\\+?\\\\d[\\\\d\\\\-\\\\s]{7,}\\\\d)"

/-- Pattern of the "Remove addresses patterns" pass (IGNORECASE). -/
def ADDRESS_PATTERN : String :=
  "\\\\b(Street|St\\\\.|Avenue|Ave\\\\.|Road|Rd\\\\.|Block|Apartment|Apt\\\\.|PO Box)\\\\b.*"

/-- Pattern of the "Remove dates of birth patterns" pass (IGNORECASE). -/
def DOB_PATTERN : String :=
  "\\\\b(DOB|D.O.B|Date of Birth)[:\\\\- ]*\\\\d{1,2}[\\\\/\\\\-]\\\\d{1,2}[\\\\/\\\\-]\\\\d{2,4}"

/-- Pattern of the "Remove patient identifiers common tokens" pass
(IGNORECASE). -/
def IDENT_PATTERN : String :=
  "\\\\b(Patient Name|Name|Guardian|Age|Sex|MRN|UHID|ID)[: ]+[^\\\\n]+"

/-- `strip_pii` from src/main.py: the five re.sub passes in order; a compile
error in any pass propagates as the raised exception. -/
def strip_pii (text : String) : Except RegexErr String := do
  let t1 ← reSub EMAIL_PATTERN "[email removed]" text false
  let t2 ← reSub PHONE_PATTERN "[phone removed]" t1 false
  let t3 ← reSub ADDRESS_PATTERN "[address removed]" t2 true
  let t4 ← reSub DOB_PATTERN "[dob removed]" t3 true
  let t5 ← reSub IDENT_PATTERN "[identifier removed]" t4 true
  return t5

/-! ## The analyze_text handler (src/main.py lines 259-282) -/

/-- Failures of the POST /api/analyze/text handler: the explicit 400 for
missing text, or an uncaught exception (HTTP 500) — here the `re.error`
escaping from strip_pii. -/
inductive ApiError where
  | badRequest : String → ApiError
  | internalError : RegexErr → ApiError
deriving DecidableEq, Repr

/-- The document built at src/main.py lines 269-276 and handed to
`create_document('query', doc)`. -/
structure QueryDoc where
  patient_language : String
  input_type : String
  symptom_text : String
  ocr_text : Option String
  combined_text : String
  analysis : AnalysisOut
deriving DecidableEq, Repr

/-- The AnalyzeOut response model. -/
structure AnalyzeResp where
  category : String
  severity : String
  recommendation : Option String
  reason : Option String
  query_id : Option String
deriving DecidableEq, Repr

/-- `analyze_text` from src/main.py, with the rule/content stores and the
persistence collaborator (`create_document` wrapped in try/except: `none`
models a swallowed storage failure) as explicit parameters. -/
def analyze_text (content : List (String × String)) (rules : RulesDoc)
    (persist : QueryDoc → Option String) (language text : String) :
    Except ApiError AnalyzeResp :=
  let base_text := String.mk (pyStrip text.data)
  if base_text = "" then .error (.badRequest "Text is required")
  else
    match strip_pii base_text with
    | .error e => .error (.internalError e)
    | .ok pii =>
      let relevant := filter_medically_relevant pii
      let combined := relevant
      let analysis := analyze_text_engine content rules combined
      let doc : QueryDoc := ⟨language, "text", base_text, none, combined, analysis⟩
      let qid := persist doc
      .ok ⟨analysis.category, analysis.severity, analysis.recommendation,
           analysis.reason, qid⟩

/-! ## Admin rule updates (src/main.py lines 394-397) -/

/-- The PUT /api/admin/rules handler: after the `require_admin` token gate
(abstracted as the Boolean `authorized`), the body is `save_rules(payload)`
followed by a success response — the payload is stored verbatim, with no
validation of its contents. -/
def update_rules (authorized : Bool) (payload : RulesDoc) : Option RulesDoc :=
  if authorized then some payload else none

/-! ## Characterization lemmas for the engine -/

theorem engine_category (content : List (String × String)) (rules : RulesDoc)
    (text : String) :
    (analyze_text_engine content rules text).category =
      (if anyTermIn (lowerStr text.data) ["rash", "itch", "allergy"] then "dermatology"
       else if anyTermIn (lowerStr text.data) ["chest", "heart", "palpitation"] then "cardiac"
       else if anyTermIn (lowerStr text.data) ["fever", "cold", "cough", "sore throat"] then "respiratory"
       else "general") := by
  unfold analyze_text_engine
  cases h : firstRedFlag (lowerStr text.data) rules <;> simp [h]

theorem engine_severity (content : List (String × String)) (rules : RulesDoc)
    (text : String) :
    (analyze_text_engine content rules text).severity =
      (if (firstRedFlag (lowerStr text.data) rules).isSome then "emergency"
       else if anyTermIn (lowerStr text.data)
           ["unbearable", "fainted", "bleeding", "blue lips", "not breathing"] then "high"
       else if anyTermIn (lowerStr text.data)
           ["moderate", "severe", "high", "intense", "cannot sleep"] then "medium"
       else "low") := by
  unfold analyze_text_engine
  cases h : firstRedFlag (lowerStr text.data) rules <;> simp [h]

theorem orNone_red_flag (flag : String) :
    orNone ("Red flag triggered: " ++ flag) =
      some ("Red flag triggered: " ++ flag) := by
  unfold orNone
  rw [if_neg]
  intro h
  have h1 := congrArg String.length h
  rw [String.length_append] at h1
  rw [show ("Red flag triggered: ").length = 20 from rfl] at h1
  rw [show ("" : String).length = 0 from rfl] at h1
  omega

/-! ## Lemmas about splitting, digits and hex -/

theorem splitOnP_no_sep (p : Char → Bool) (xs : List Char)
    (h : ∀ a ∈ xs, p a = false) : splitOnP p xs = [xs] := by
  induction xs with
  | nil => rfl
  | cons x t ih =>
    have hx := h x (by simp)
    have ht := ih (fun a ha => h a (by simp [ha]))
    simp [splitOnP, hx, ht]

theorem splitOnP_append_sep (p : Char → Bool) (xs : List Char) (c : Char)
    (rest : List Char) (h : ∀ a ∈ xs, p a = false) (hc : p c = true) :
    splitOnP p (xs ++ c :: rest) = xs :: splitOnP p rest := by
  induction xs with
  | nil => simp [splitOnP, hc]
  | cons x t ih =>
    have hx := h x (by simp)
    have ht := ih (fun a ha => h a (by simp [ha]))
    simp [splitOnP, hx, ht]

theorem splitOnDot_token (u ts sig : List Char)
    (hu : ∀ a ∈ u, (a == '.') = false) (hts : ∀ a ∈ ts, (a == '.') = false)
    (hsig : ∀ a ∈ sig, (a == '.') = false) :
    splitOnDot (u ++ '.' :: ts ++ '.' :: sig) = [u, ts, sig] := by
  unfold splitOnDot
  rw [List.append_assoc, List.cons_append,
      splitOnP_append_sep (fun c => c == '.') u '.' (ts ++ '.' :: sig) hu (by decide),
      splitOnP_append_sep (fun c => c == '.') ts '.' sig hts (by decide),
      splitOnP_no_sep (fun c => c == '.') sig hsig]

theorem digitChar_isDigit (k : Nat) : (digitChar k).isDigit = true := by
  unfold digitChar
  split <;> decide

theorem digitsRevAux_all_digits (fuel : Nat) :
    ∀ n, (digitsRevAux fuel n).all Char.isDigit = true := by
  induction fuel with
  | zero => intro n; rfl
  | succ fuel ih =>
    intro n
    by_cases h : n = 0 <;> simp [digitsRevAux, h, digitChar_isDigit, ih]

theorem digitChar_toNat {m : Nat} (hm : m < 10) :
    (digitChar m).toNat - 48 = m := by
  interval_cases m <;> rfl

theorem digitsRev_foldl (fuel : Nat) :
    ∀ n a, n ≤ fuel →
      (digitsRevAux fuel n).reverse.foldl (fun acc c => acc * 10 + (c.toNat - 48)) a
        = a * 10 ^ (digitsRevAux fuel n).length + n := by
  induction fuel with
  | zero =>
    intro n a hn
    interval_cases n
    simp [digitsRevAux]
  | succ fuel ih =>
    intro n a hn
    by_cases h0 : n = 0
    · subst h0; simp [digitsRevAux]
    · rw [show digitsRevAux (fuel + 1) n
          = digitChar (n % 10) :: digitsRevAux fuel (n / 10) by
        simp [digitsRevAux, h0]]
      have hdiv : n / 10 ≤ fuel := by
        have hlt : n / 10 < n := Nat.div_lt_self (Nat.pos_of_ne_zero h0) (by norm_num)
        omega
      rw [List.reverse_cons, List.foldl_append]
      rw [ih (n / 10) a hdiv]
      have hmod : (digitChar (n % 10)).toNat - 48 = n % 10 :=
        digitChar_toNat (Nat.mod_lt _ (by norm_num))
      simp only [List.foldl_cons, List.foldl_nil, List.length_cons, hmod]
      rw [pow_succ, ← mul_assoc]
      have hdm := Nat.div_add_mod n 10
      generalize a * 10 ^ (digitsRevAux fuel (n / 10)).length = Q
      omega

theorem digitsRevAux_ne_nil {n : Nat} (h0 : n ≠ 0) : digitsRevAux n n ≠ [] := by
  cases n with
  | zero => exact absurd rfl h0
  | succ m => simp [digitsRevAux]

theorem parseNat_natDecimal (n : Nat) : parseNat (natDecimal n) = some n := by
  by_cases h0 : n = 0
  · subst h0; rfl
  · unfold natDecimal
    rw [if_neg h0]
    unfold parseNat
    rw [if_pos]
    · rw [digitsRev_foldl n n 0 le_rfl]
      simp
    · rw [Bool.and_eq_true]
      constructor
      · simp [List.isEmpty_iff, digitsRevAux_ne_nil h0]
      · rw [List.all_reverse]
        exact digitsRevAux_all_digits n n

theorem isDigit_no_dot {a : Char} (hd : a.isDigit = true) : (a == '.') = false := by
  rw [beq_eq_false_iff_ne]
  intro he
  subst he
  exact absurd hd (by decide)

theorem natDecimal_no_dot (n : Nat) : ∀ a ∈ natDecimal n, (a == '.') = false := by
  intro a ha
  apply isDigit_no_dot
  unfold natDecimal at ha
  by_cases h0 : n = 0
  · rw [if_pos h0] at ha
    simp at ha
    subst ha
    decide
  · rw [if_neg h0] at ha
    rw [List.mem_reverse] at ha
    exact List.all_eq_true.mp (digitsRevAux_all_digits n n) a ha

theorem hexChar_ne_dot (k : Nat) : hexChar k ≠ '.' := by
  unfold hexChar
  split <;> decide

theorem bytesToHex_no_dot (bs : List Nat) :
    ∀ a ∈ bytesToHex bs, (a == '.') = false := by
  intro a ha
  rw [beq_eq_false_iff_ne]
  unfold bytesToHex at ha
  rw [List.mem_flatten] at ha
  obtain ⟨s, hs, has⟩ := ha
  rw [List.mem_map] at hs
  obtain ⟨b, -, rfl⟩ := hs
  simp only [List.mem_cons, List.not_mem_nil, or_false] at has
  rcases has with rfl | rfl <;> exact hexChar_ne_dot _

theorem hmacHexL_no_dot (k m : List Char) :
    ∀ a ∈ hmacHexL k m, (a == '.') = false :=
  bytesToHex_no_dot _

theorem no_dot_mem {u : List Char} (hu : '.' ∉ u) :
    ∀ a ∈ u, (a == '.') = false :=
  fun _a ha => beq_eq_false_iff_ne.mpr (fun he => hu (he ▸ ha))

/-- Master lemma: verifying a fresh token built from a dot-free username
reduces to the freshness check. -/
theorem verifyChars_token (u : List Char) (t now : Nat)
    (hu : ∀ a ∈ u, (a == '.') = false) :
    verifyChars (tokenChars u t) now
      = decide ((now : Int) - (t : Int) < 604800) := by
  unfold verifyChars tokenChars
  rw [splitOnDot_token u (natDecimal t)
      (hmacHexL SECRET_KEY.data (u ++ ':' :: natDecimal t)) hu
      (natDecimal_no_dot t) (hmacHexL_no_dot _ _)]
  simp only [compare_digest, beq_self_eq_true, if_true, parseNat_natDecimal]

/-! ## Supporting lemmas -/

theorem containsL_nil (hay : List Char) : containsL hay [] = true := by
  unfold containsL
  simp [isPrefixL]

theorem stringMk_ne_empty {L : List Char} (h : L ≠ []) : String.mk L ≠ "" :=
  fun he => h (congrArg String.data he)

theorem mem_relevantLines_ne_nil {text : String} {l : List Char}
    (h : l ∈ relevantLines text) : l ≠ [] := by
  unfold relevantLines at h
  rw [List.mem_filter] at h
  intro hl
  subst hl
  simp at h

theorem joinNL_ne_nil {L : List (List Char)} (hL : L ≠ [])
    (hall : ∀ l ∈ L, l ≠ []) : joinNL L ≠ [] := by
  cases L with
  | nil => exact absurd rfl hL
  | cons x xs =>
    cases xs with
    | nil => simpa [joinNL] using hall x (by simp)
    | cons y ys =>
      have hx := hall x (by simp)
      cases x with
      | nil => exact absurd rfl hx
      | cons c cs => simp [joinNL]

/-! ## Claim theorems -/

/-- C4: if some stored red-flag phrase (lower-cased) occurs in the lower-cased
input, the engine forces severity "emergency", the recommendation becomes the
configured emergency template, and the reason names the first matching phrase
in the stored order (`find?` is exactly the source's first-match-and-break
loop); when no phrase matches, the reason is absent. -/
theorem c4_red_flag_override_dominates (content : List (String × String))
    (rules : RulesDoc) (text : String) :
    (∀ flag, firstRedFlag (lowerStr text.data) rules = some flag →
      (analyze_text_engine content rules text).severity = "emergency" ∧
      (analyze_text_engine content rules text).recommendation = dictGet content "emergency" ∧
      (analyze_text_engine content rules text).reason = some ("Red flag triggered: " ++ flag)) ∧
    ((∃ flag ∈ rules.red_flags,
        containsL (lowerStr text.data) (lowerStr flag.data) = true) →
      (analyze_text_engine content rules text).severity = "emergency") ∧
    (firstRedFlag (lowerStr text.data) rules = none →
      (analyze_text_engine content rules text).reason = none) := by
  refine ⟨?_, ?_, ?_⟩
  · intro flag h
    simp only [analyze_text_engine]
    rw [h]
    exact ⟨rfl, rfl, orNone_red_flag flag⟩
  · rintro ⟨flag, hmem, hc⟩
    have hs : (firstRedFlag (lowerStr text.data) rules).isSome := by
      unfold firstRedFlag
      exact List.find?_isSome.mpr ⟨flag, hmem, hc⟩
    rw [engine_severity, if_pos hs]
  · intro h
    simp only [analyze_text_engine]
    rw [h]
    simp [orNone]

/-- Witness for C4 at the spec's end-to-end input. -/
theorem c4_witness :
    firstRedFlag (lowerStr ("severe chest pain and blue lips" : String).data) DEFAULT_RULES
        = some "chest pain" ∧
    (analyze_text_engine DEFAULT_CONTENT DEFAULT_RULES "severe chest pain and blue lips").severity = "emergency" ∧
    (analyze_text_engine DEFAULT_CONTENT DEFAULT_RULES "severe chest pain and blue lips").recommendation
        = dictGet DEFAULT_CONTENT "emergency" ∧
    (analyze_text_engine DEFAULT_CONTENT DEFAULT_RULES "severe chest pain and blue lips").reason
        = some ("Red flag triggered: " ++ "chest pain") :=
  ⟨by decide,
   (c4_red_flag_override_dominates DEFAULT_CONTENT DEFAULT_RULES
      "severe chest pain and blue lips").1 "chest pain" (by decide)⟩

/-- C6: category detection is last-match-wins — any dermatology term forces
"dermatology" (in particular when a respiratory term is also present), a
cardiac term with no dermatology term gives "cardiac", and "general" is the
default when no group matches. -/
theorem c6_category_last_match_wins (content : List (String × String))
    (rules : RulesDoc) (text : String) :
    (anyTermIn (lowerStr text.data) ["fever", "cold", "cough", "sore throat"] = true ∧
       anyTermIn (lowerStr text.data) ["rash", "itch", "allergy"] = true →
      (analyze_text_engine content rules text).category = "dermatology") ∧
    (anyTermIn (lowerStr text.data) ["rash", "itch", "allergy"] = true →
      (analyze_text_engine content rules text).category = "dermatology") ∧
    (anyTermIn (lowerStr text.data) ["chest", "heart", "palpitation"] = true ∧
       anyTermIn (lowerStr text.data) ["rash", "itch", "allergy"] = false →
      (analyze_text_engine content rules text).category = "cardiac") ∧
    (anyTermIn (lowerStr text.data) ["fever", "cold", "cough", "sore throat"] = false ∧
       anyTermIn (lowerStr text.data) ["chest", "heart", "palpitation"] = false ∧
       anyTermIn (lowerStr text.data) ["rash", "itch", "allergy"] = false →
      (analyze_text_engine content rules text).category = "general") := by
  refine ⟨?_, ?_, ?_, ?_⟩
  · rintro ⟨-, h2⟩
    rw [engine_category]
    simp [h2]
  · intro h2
    rw [engine_category]
    simp [h2]
  · rintro ⟨h1, h2⟩
    rw [engine_category]
    simp [h1, h2]
  · rintro ⟨h1, h2, h3⟩
    rw [engine_category]
    simp [h1, h2, h3]

/-- Witness for C6 at the spec input "cough and itch". -/
theorem c6_witness :
    anyTermIn (lowerStr ("cough and itch" : String).data)
        ["fever", "cold", "cough", "sore throat"] = true ∧
    anyTermIn (lowerStr ("cough and itch" : String).data)
        ["rash", "itch", "allergy"] = true ∧
    (analyze_text_engine DEFAULT_CONTENT DEFAULT_RULES "cough and itch").category = "dermatology" :=
  ⟨by decide, by decide,
   (c6_category_last_match_wins DEFAULT_CONTENT DEFAULT_RULES "cough and itch").1
     ⟨by decide, by decide⟩⟩

/-- C7: the medium and high severity checks run independently — a critical
term alone already yields at least "high" (the red-flag override can raise it
further to "emergency" but never below "high"), in particular together with a
medium term. -/
theorem c7_severity_escalation_monotone (content : List (String × String))
    (rules : RulesDoc) (text : String) :
    (anyTermIn (lowerStr text.data)
        ["unbearable", "fainted", "bleeding", "blue lips", "not breathing"] = true →
      (analyze_text_engine content rules text).severity = "high" ∨
      (analyze_text_engine content rules text).severity = "emergency") ∧
    (anyTermIn (lowerStr text.data)
        ["unbearable", "fainted", "bleeding", "blue lips", "not breathing"] = true ∧
       anyTermIn (lowerStr text.data)
        ["moderate", "severe", "high", "intense", "cannot sleep"] = false →
      (analyze_text_engine content rules text).severity = "high" ∨
      (analyze_text_engine content rules text).severity = "emergency") ∧
    (anyTermIn (lowerStr text.data)
        ["moderate", "severe", "high", "intense", "cannot sleep"] = true ∧
       anyTermIn (lowerStr text.data)
        ["unbearable", "fainted", "bleeding", "blue lips", "not breathing"] = true →
      (analyze_text_engine content rules text).severity = "high" ∨
      (analyze_text_engine content rules text).severity = "emergency") := by
  have key : anyTermIn (lowerStr text.data)
        ["unbearable", "fainted", "bleeding", "blue lips", "not breathing"] = true →
      (analyze_text_engine content rules text).severity = "high" ∨
      (analyze_text_engine content rules text).severity = "emergency" := by
    intro h
    rw [engine_severity]
    cases hfs : firstRedFlag (lowerStr text.data) rules
    · left
      simp [hfs, h]
    · right
      simp [hfs]
  exact ⟨key, fun h => key h.1, fun h => key h.2⟩

/-- Witness for C7 at the input "fainted" (critical term, no medium term). -/
theorem c7_witness :
    anyTermIn (lowerStr ("fainted" : String).data)
        ["unbearable", "fainted", "bleeding", "blue lips", "not breathing"] = true ∧
    anyTermIn (lowerStr ("fainted" : String).data)
        ["moderate", "severe", "high", "intense", "cannot sleep"] = false ∧
    ((analyze_text_engine DEFAULT_CONTENT DEFAULT_RULES "fainted").severity = "high" ∨
     (analyze_text_engine DEFAULT_CONTENT DEFAULT_RULES "fainted").severity = "emergency") :=
  ⟨by decide, by decide,
   (c7_severity_escalation_monotone DEFAULT_CONTENT DEFAULT_RULES "fainted").2.1
     ⟨by decide, by decide⟩⟩

/-- C8: with at least one non-empty trimmed line, the filter returns the
keyword-bearing lines in original order when any qualify, otherwise the first
ten lines, and in both cases the output is a non-empty string. -/
theorem c8_relevance_filter_never_empty (text : String)
    (h : relevantLines text ≠ []) :
    ((relevantLines text).filter keywordLine ≠ [] →
       filter_medically_relevant text =
         String.mk (joinNL ((relevantLines text).filter keywordLine))) ∧
    ((relevantLines text).filter keywordLine = [] →
       filter_medically_relevant text =
         String.mk (joinNL ((relevantLines text).take 10))) ∧
    filter_medically_relevant text ≠ "" := by
  have hmemtake : ∀ l ∈ (relevantLines text).take 10, l ≠ [] :=
    fun l hl => mem_relevantLines_ne_nil (List.mem_of_mem_take hl)
  have hmemfilter : ∀ l ∈ (relevantLines text).filter keywordLine, l ≠ [] :=
    fun l hl => mem_relevantLines_ne_nil (List.mem_of_mem_filter hl)
  have htake : (relevantLines text).take 10 ≠ [] := by
    cases hr : relevantLines text with
    | nil => exact absurd hr h
    | cons x xs => simp
  refine ⟨?_, ?_, ?_⟩
  · intro hk
    unfold filter_medically_relevant
    simp only [List.isEmpty_iff, if_neg hk]
  · intro hk
    unfold filter_medically_relevant
    simp only [List.isEmpty_iff, if_pos hk]
  · unfold filter_medically_relevant
    simp only [List.isEmpty_iff]
    by_cases hk : (relevantLines text).filter keywordLine = []
    · rw [if_pos hk]
      exact stringMk_ne_empty (joinNL_ne_nil htake hmemtake)
    · rw [if_neg hk]
      exact stringMk_ne_empty (joinNL_ne_nil hk hmemfilter)

/-- Witness for C8 at a non-clinical input that exercises the fallback. -/
theorem c8_witness :
    relevantLines "just a note" ≠ [] ∧
    filter_medically_relevant "just a note" ≠ "" :=
  ⟨by decide, (c8_relevance_filter_never_empty "just a note" (by decide)).2.2⟩

/-- C10: an empty red-flag phrase matches every input (the empty string is a
substring of everything), so any rules document containing it classifies every
input as severity "emergency"; and the rules-update handler stores an
arbitrary payload verbatim, performing no validation that would reject the
empty phrase. -/
theorem c10_empty_red_flag_forces_emergency (content : List (String × String))
    (rules : RulesDoc) (text : String) (h : "" ∈ rules.red_flags) :
    (analyze_text_engine content rules text).severity = "emergency" ∧
    (∀ payload : RulesDoc, update_rules true payload = some payload) := by
  constructor
  · have hs : (firstRedFlag (lowerStr text.data) rules).isSome := by
      unfold firstRedFlag
      exact List.find?_isSome.mpr ⟨"", h, containsL_nil _⟩
    rw [engine_severity, if_pos hs]
  · intro payload
    rfl

/-- Witness for C10: the rules document whose only red flag is the empty
string classifies even the empty input as an emergency. -/
theorem c10_witness :
    "" ∈ (RulesDoc.mk [""]).red_flags ∧
    (analyze_text_engine DEFAULT_CONTENT (RulesDoc.mk [""]) "").severity = "emergency" ∧
    update_rules true (RulesDoc.mk [""]) = some (RulesDoc.mk [""]) :=
  ⟨by decide,
   (c10_empty_red_flag_forces_emergency DEFAULT_CONTENT (RulesDoc.mk [""]) "" (by decide)).1,
   (c10_empty_red_flag_forces_emergency DEFAULT_CONTENT (RulesDoc.mk [""]) "" (by decide)).2
     (RulesDoc.mk [""])⟩

/-- C3: token round-trip.  Logging in with the configured admin credentials
issues a token; verifying it at issuance time succeeds; verifying it 7 days
(604800 seconds) or more after issuance fails; a token whose signature was
produced with a different secret (so that the resulting HMAC-SHA256 hex
digest differs from the one under the server secret) fails; and a token that
does not split into exactly three dot-separated fields fails. -/
theorem c3_token_round_trip :
    (∀ now : Nat, admin_login ADMIN_USERNAME ADMIN_PASSWORD now
        = some (make_token ADMIN_USERNAME now)) ∧
    (∀ (u : String) (t : Nat), '.' ∉ u.data →
        verify_token (make_token u t) t = true) ∧
    (∀ (u : String) (t now : Nat), '.' ∉ u.data →
        (604800 : Int) ≤ (now : Int) - (t : Int) →
        verify_token (make_token u t) now = false) ∧
    (∀ (u : List Char) (t now : Nat) (other : String), '.' ∉ u →
        hmacHexL other.data (u ++ ':' :: natDecimal t)
          ≠ hmacHexL SECRET_KEY.data (u ++ ':' :: natDecimal t) →
        verify_token (String.mk (u ++ '.' :: natDecimal t ++ '.' ::
            hmacHexL other.data (u ++ ':' :: natDecimal t))) now = false) ∧
    (∀ (tok : String) (now : Nat), (splitOnDot tok.data).length ≠ 3 →
        verify_token tok now = false) := by
  refine ⟨?_, ?_, ?_, ?_, ?_⟩
  · intro now
    rfl
  · intro u t hu
    show verifyChars (tokenChars u.data t) t = true
    rw [verifyChars_token u.data t t (no_dot_mem hu)]
    simp only [decide_eq_true_eq]
    omega
  · intro u t now hu hexp
    show verifyChars (tokenChars u.data t) now = false
    rw [verifyChars_token u.data t now (no_dot_mem hu)]
    simp only [decide_eq_false_iff_not]
    omega
  · intro u t now other hu hne
    show verifyChars (u ++ '.' :: natDecimal t ++ '.' ::
        hmacHexL other.data (u ++ ':' :: natDecimal t)) now = false
    unfold verifyChars
    rw [splitOnDot_token u (natDecimal t)
        (hmacHexL other.data (u ++ ':' :: natDecimal t)) (no_dot_mem hu)
        (natDecimal_no_dot t) (hmacHexL_no_dot _ _)]
    have hb : compare_digest (hmacHexL SECRET_KEY.data (u ++ ':' :: natDecimal t))
        (hmacHexL other.data (u ++ ':' :: natDecimal t)) = false := by
      unfold compare_digest
      exact beq_eq_false_iff_ne.mpr (Ne.symm hne)
    simp [hb]
  · intro tok now hlen
    show verifyChars tok.data now = false
    unfold verifyChars
    cases hsp : splitOnDot tok.data with
    | nil => rfl
    | cons a l1 =>
      cases l1 with
      | nil => rfl
      | cons b l2 =>
        cases l2 with
        | nil => rfl
        | cons c l3 =>
          cases l3 with
          | nil => exact absurd (by rw [hsp]; rfl) hlen
          | cons d l4 => rfl

/-- Witness for C3: the default admin identity, issuance at time 0,
verification at times 0 and 604800, a token signed with the secret "wrong",
and the malformed token "abc". -/
theorem c3_witness :
    ('.' ∉ ("admin" : String).data) ∧
    ((604800 : Int) ≤ ((604800 : Nat) : Int) - ((0 : Nat) : Int)) ∧
    (hmacHexL ("wrong" : String).data (("admin" : String).data ++ ':' :: natDecimal 0)
       ≠ hmacHexL SECRET_KEY.data (("admin" : String).data ++ ':' :: natDecimal 0)) ∧
    ((splitOnDot ("abc" : String).data).length ≠ 3) ∧
    admin_login ADMIN_USERNAME ADMIN_PASSWORD 0 = some (make_token ADMIN_USERNAME 0) ∧
    verify_token (make_token "admin" 0) 0 = true ∧
    verify_token (make_token "admin" 0) 604800 = false ∧
    verify_token (String.mk (("admin" : String).data ++ '.' :: natDecimal 0 ++ '.' ::
        hmacHexL ("wrong" : String).data (("admin" : String).data ++ ':' :: natDecimal 0))) 0 = false ∧
    verify_token "abc" 0 = false := by
  have hne : hmacHexL ("wrong" : String).data (("admin" : String).data ++ ':' :: natDecimal 0)
      ≠ hmacHexL SECRET_KEY.data (("admin" : String).data ++ ':' :: natDecimal 0) := by
    decide
  exact ⟨by decide, by decide, hne, by decide,
    c3_token_round_trip.1 0,
    c3_token_round_trip.2.1 "admin" 0 (by decide),
    c3_token_round_trip.2.2.1 "admin" 0 604800 (by decide) (by decide),
    c3_token_round_trip.2.2.2.1 ("admin" : String).data 0 0 "wrong" (by decide) hne,
    c3_token_round_trip.2.2.2.2 "abc" 0 (by decide)⟩

/-- Shared fact: strip_pii raises on every input.  The first three re.sub
passes run, but the fourth compiles the DOB pattern, whose class `[:\\- ]`
contains the descending range backslash (92) to space (32); CPython's class
parsing rejects it with `re.error: bad character range`, and the exception
propagates out of strip_pii. -/
theorem strip_pii_raises (s : String) :
    strip_pii s = .error .badCharacterRange := rfl

/-- C2: evaluated at both spec inputs, strip_pii does not return redacted
text at all — it raises re.error while compiling the DOB pattern.  The last
two conjuncts add that even the passes that do compile leave the e-mail
address and the digit run untouched (their doubled backslashes make them
match only text containing literal backslash characters), so no placeholder
could ever be produced. -/
theorem c2_redaction_never_returns :
    strip_pii "contact me at a@b.com or 9876543210" = .error .badCharacterRange ∧
    strip_pii "Name: John Doe, DOB: 01/02/1990, fever 102F cannot sleep"
      = .error .badCharacterRange ∧
    reCompile DOB_PATTERN = .error .badCharacterRange ∧
    reSub EMAIL_PATTERN "[email removed]" "contact me at a@b.com or 9876543210" false
      = .ok "contact me at a@b.com or 9876543210" ∧
    reSub PHONE_PATTERN "[phone removed]" "contact me at a@b.com or 9876543210" false
      = .ok "contact me at a@b.com or 9876543210" :=
  ⟨rfl, rfl, rfl, rfl, rfl⟩

/-- C5: redaction cannot be idempotent because it never returns an output:
for every input string, strip_pii raises re.error (the DOB pattern fails to
compile), so redact(redact(x)) = redact(x) is false in the sense that redact
produces no value to re-apply. -/
theorem c5_redaction_never_returns_a_value (s : String) :
    strip_pii s = .error .badCharacterRange :=
  strip_pii_raises s

/-- C1: for every text-analysis call whose stripped text is non-empty, the
handler raises (HTTP 500) inside strip_pii before the query document is
built, so no document at all — redacted or raw — is handed to the
persistence collaborator.  (Had strip_pii returned, the document of lines
269-276 would moreover carry the raw input verbatim in its symptom_text
field.) -/
theorem c1_no_document_reaches_persistence (content : List (String × String))
    (rules : RulesDoc) (persist : QueryDoc → Option String)
    (language text : String) (h : String.mk (pyStrip text.data) ≠ "") :
    analyze_text content rules persist language text
      = .error (.internalError .badCharacterRange) := by
  unfold analyze_text
  rw [if_neg h, strip_pii_raises]

/-- Witness for C1 at the spec's PII-bearing input, with a persistence
collaborator that would succeed. -/
theorem c1_witness :
    (String.mk (pyStrip ("contact me at a@b.com or 9876543210" : String).data) ≠ "") ∧
    analyze_text DEFAULT_CONTENT DEFAULT_RULES (fun _ => some "42") "en-US"
        "contact me at a@b.com or 9876543210"
      = .error (.internalError .badCharacterRange) :=
  ⟨by decide,
   c1_no_document_reaches_persistence DEFAULT_CONTENT DEFAULT_RULES
     (fun _ => some "42") "en-US" "contact me at a@b.com or 9876543210" (by decide)⟩

/-- C9: a text-analysis call with a failing persistence collaborator does not
return the classification with a null record id — it returns nothing at all,
because the handler raises in strip_pii before the persistence try/except is
ever reached. -/
theorem c9_swallowing_point_never_reached :
    analyze_text DEFAULT_CONTENT DEFAULT_RULES (fun _ => none) "en-US" "fever"
      = .error (.internalError .badCharacterRange) ∧
    ∀ resp : AnalyzeResp,
      analyze_text DEFAULT_CONTENT DEFAULT_RULES (fun _ => none) "en-US" "fever"
        ≠ .ok resp := by
  constructor
  · rfl
  · intro resp h
    have hrfl : analyze_text DEFAULT_CONTENT DEFAULT_RULES (fun _ => none) "en-US" "fever"
        = .error (.internalError .badCharacterRange) := rfl
    rw [hrfl] at h
    exact Except.noConfusion h

end CureSight
